import Mathlib

/-!
Shallow embedding of `apps/custom_mosaic_tool/models.py`.

The file under verification defines Django models; the one piece of logic is
`Query.get_or_create_query_from_post` (lines 89-107) plus the generator
`Query.get_fields_with_labels` (lines 71-73).  We embed the routine over an
explicit database state.

Python `dict` objects with string keys and values are modelled as association
lists (`FormData`); all operations read the first binding of a key, and
insertion replaces the first binding in place (appending when the key is new),
which coincides with Python dict semantics on duplicate-free key lists.
-/

/-- A Python dict mapping field-name strings to string values. -/
abbrev FormData := List (String × String)

/-- Python `d[k]` as an `Option`: the value of the first binding of `k`. -/
def dictGet : FormData → String → Option String
  | [], _ => none
  | (k, v) :: rest, key => if k = key then some v else dictGet rest key

/-- Python `k in d` (membership test on dict keys). -/
def dictContains (d : FormData) (key : String) : Bool :=
  (dictGet d key).isSome

/-- Python `d[k] = v`: replace the first binding of `key` in place, append if absent. -/
def dictInsert : FormData → String → String → FormData
  | [], key, v => [(key, v)]
  | (k, w) :: rest, key, v =>
      if k = key then (key, v) :: rest else (k, w) :: dictInsert rest key v

/-- The keys of a dict, in order. -/
def dictKeys (d : FormData) : List String :=
  d.map Prod.fst

/-- Model `dc_algorithm.models.Satellite`: looked up by `satellite_id`, supplies
`product_prefix` (spec section 3). -/
structure Satellite where
  satellite_id : String
  product_prefix : String
deriving DecidableEq

/-- Model `dc_algorithm.models.Area`: looked up by `area_id` (spec section 3). -/
structure Area where
  area_id : String
deriving DecidableEq

/-- The persisted database state visible to the routine: the satellite and
area tables, and the table of persisted query records.  A persisted query
record is represented by its field assignment. -/
structure DB where
  satellites : List Satellite
  areas : List Area
  queries : List FormData
deriving DecidableEq

/-- The exceptions the routine can raise: `KeyError` on a missing dict key,
`Model.DoesNotExist` and `Model.MultipleObjectsReturned` from `objects.get`.
The string names the dict key, resp. the model class. -/
inductive PyError where
  | keyError (key : String)
  | doesNotExist (model : String)
  | multipleObjectsReturned (model : String)
deriving DecidableEq

/-- Lookup `Satellite.objects.get(satellite_id=sid)`: the unique satellite with the
given id; `DoesNotExist` when there is none, `MultipleObjectsReturned` when
there are several. -/
def getSatellite (db : DB) (sid : String) : Except PyError Satellite :=
  match db.satellites.filter (fun s => s.satellite_id = sid) with
  | [] => .error (.doesNotExist "Satellite")
  | [s] => .ok s
  | _ => .error (.multipleObjectsReturned "Satellite")

/-- Lookup `Area.objects.get(area_id=aid)`. -/
def getArea (db : DB) (aid : String) : Except PyError Area :=
  match db.areas.filter (fun a => a.area_id = aid) with
  | [] => .error (.doesNotExist "Area")
  | [a] => .ok a
  | _ => .error (.multipleObjectsReturned "Area")

/-- Lines 93-94: `"Custom Mosaic Query" if 'title' not in form_data or
form_data['title'] == '' else form_data['title']`. -/
def resolveTitle (d : FormData) : String :=
  match dictGet d "title" with
  | none => "Custom Mosaic Query"
  | some t => if t = "" then "Custom Mosaic Query" else t

/-- Lines 95-96: the same defaulting for `description`, default `"None"`. -/
def resolveDescription (d : FormData) : String :=
  match dictGet d "description" with
  | none => "None"
  | some t => if t = "" then "None" else t

/-- Lines 90-96 after the lookups succeed: the three in-place assignments
`query_data['product'] = ...`, `query_data['title'] = ...`,
`query_data['description'] = ...`, each reading the dict as already mutated
by the previous one. -/
def normalized (form_data : FormData) (sat : Satellite) (area : Area) : FormData :=
  let qd1 := dictInsert form_data "product" (sat.product_prefix ++ area.area_id)
  let qd2 := dictInsert qd1 "title" (resolveTitle qd1)
  dictInsert qd2 "description" (resolveDescription qd2)

/-- Lines 89-96: the normalisation prefix of `get_or_create_query_from_post`.
`query_data = form_data` aliases the caller's dict, so the three assignments
mutate it in place; the result is the mutated dict.  Evaluation order follows
Python: `form_data['platform']` is read first (KeyError if absent), then the
satellite lookup, then `form_data['area_id']`, then the area lookup; any
exception propagates before the `product` assignment happens. -/
def normalizeFormData (db : DB) (form_data : FormData) : Except PyError FormData :=
  match dictGet form_data "platform" with
  | none => .error (.keyError "platform")
  | some platform =>
    match getSatellite db platform with
    | .error e => .error e
    | .ok sat =>
      match dictGet form_data "area_id" with
      | none => .error (.keyError "area_id")
      | some aid =>
        match getArea db aid with
        | .error e => .error e
        | .ok area => .ok (normalized form_data sat area)

/-- Line 99: `{key: query_data[key] for key in valid_query_fields if key in
query_data}` — the restriction of `d` to the declared field names, iterated
in field order. -/
def filterFields (fields : List String) (d : FormData) : FormData :=
  fields.filterMap (fun k => (dictGet d k).map (fun v => (k, v)))

/-- Line 102: a persisted record matches `cls.objects.get(**query_data)`
exactly when every binding of the keyword dict equals the record's field. -/
def matchesFilter (flt : FormData) (rec : FormData) : Bool :=
  flt.all (fun kv => dictGet rec kv.1 == some kv.2)

/-- Lines 105-106, `cls(**query_data)` followed by `save()`: the new record
carries every declared field, taking the submitted value when present and the
model default otherwise.  Modelled from the spec for the defaults: the base
model class declaring the inherited fields (and their defaults) is
`apps.dc_algorithm.models.Query`, which is not among the sources, so the
default of an unsubmitted field is an arbitrary parameter `defaults`. -/
def mkRecord (fields : List String) (defaults : String → String) (d : FormData) : FormData :=
  fields.map (fun f => (f, (dictGet d f).getD (defaults f)))

/-- Modelled from the spec: `valid_query_fields`, the declared field names of
the query record class (`[field.name for field in cls._meta.get_fields()]`,
line 98).  The base class `dc_algorithm.models.Query` supplying the inherited
fields is not among the sources; spec section 3 describes the query record as
the composite of exactly these thirteen fields, the same thirteen named by
`Meta.unique_together` in the source (lines 65-68). -/
def valid_query_fields : List String :=
  ["platform", "product", "time_start", "time_end", "latitude_max", "latitude_min",
   "longitude_max", "longitude_min", "title", "description", "query_type",
   "animated_product", "compositor"]

deriving instance DecidableEq for Except

/-- The observable outcome of one call: the returned value or the uncaught
exception, the database afterwards, and the caller's `form_data` dict
afterwards (the routine mutates it through the `query_data` alias). -/
structure CallResult where
  result : Except PyError (FormData × Bool)
  db : DB
  form_data : FormData
deriving DecidableEq

/-- Lines 75-107: `Query.get_or_create_query_from_post(cls, form_data)`.
After normalisation the working dict is rebound to its restriction to the
declared fields (so the caller's dict keeps the normalised values), then
`cls.objects.get(**query_data)` is tried: zero matches raises
`cls.DoesNotExist`, which the `except` catches by constructing and saving a
new record; one match returns it with `created=False`; several matches raise
`MultipleObjectsReturned`, which nothing catches. -/
def get_or_create_query_from_post (fields : List String) (defaults : String → String)
    (db : DB) (form_data : FormData) : CallResult :=
  match normalizeFormData db form_data with
  | .error e => ⟨.error e, db, form_data⟩
  | .ok qd3 =>
    let query_data := filterFields fields qd3
    match db.queries.filter (fun r => matchesFilter query_data r) with
    | [] =>
      let query := mkRecord fields defaults query_data
      ⟨.ok (query, true), ⟨db.satellites, db.areas, db.queries ++ [query]⟩, qd3⟩
    | [q] => ⟨.ok (q, false), db, qd3⟩
    | _ => ⟨.error (.multipleObjectsReturned "Query"), db, qd3⟩

/-- Lines 71-73: `get_fields_with_labels(self, labels, field_names)` pairs the
`idx`-th label with `getattr(self, field_names[idx])`; `none` models the
`IndexError` raised when `field_names` is shorter than `labels`.  The record
`self` is its field assignment, so `getattr` is `dictGet`. -/
def get_fields_with_labels_go (self : FormData) (field_names : List String) :
    Nat → List String → Option (List (String × Option String))
  | _, [] => some []
  | idx, label :: rest =>
    match field_names.get? idx with
    | none => none
    | some fname =>
      (get_fields_with_labels_go self field_names (idx + 1) rest).map
        (fun tail => (label, dictGet self fname) :: tail)

/-- Lines 71-73, entry point: enumerate the labels from index 0. -/
def get_fields_with_labels (self : FormData) (labels field_names : List String) :
    Option (List (String × Option String)) :=
  get_fields_with_labels_go self field_names 0 labels

/-- Spec section 3 calls `satellite_id` and `area_id` external keys of their
records: no two satellites share a `satellite_id` and no two areas share an
`area_id`. -/
def WFLookups (db : DB) : Prop :=
  db.satellites.Pairwise (fun s1 s2 => s1.satellite_id ≠ s2.satellite_id) ∧
  db.areas.Pairwise (fun a1 a2 => a1.area_id ≠ a2.area_id)

/-- Two records share all values of the given fields. -/
def sameOnFields (fields : List String) (r1 r2 : FormData) : Prop :=
  ∀ f ∈ fields, dictGet r1 f = dictGet r2 f

/-- The uniqueness invariant of `Meta.unique_together` (lines 65-68): no two
persisted query records share all values of the given fields. -/
def UniqueQueries (fields : List String) (qs : List FormData) : Prop :=
  qs.Pairwise (fun r1 r2 => ¬ sameOnFields fields r1 r2)

/-- The persisted states reachable through the resolution routine: spec
section 3 (lifecycle): a query record is created only by this routine, so a
reachable state is any state with no query records followed by any number of
calls. -/
inductive Reachable (fields : List String) (defaults : String → String) : DB → Prop where
  | init (sats : List Satellite) (areas : List Area) :
      Reachable fields defaults ⟨sats, areas, []⟩
  | step (db : DB) (fd : FormData) (h : Reachable fields defaults db) :
      Reachable fields defaults (get_or_create_query_from_post fields defaults db fd).db

/-! ### Dictionary lemmas -/

theorem dictGet_dictInsert_self (d : FormData) (k v : String) :
    dictGet (dictInsert d k v) k = some v := by
  induction d with
  | nil => simp [dictInsert, dictGet]
  | cons kv rest ih =>
    obtain ⟨k0, w⟩ := kv
    by_cases h : k0 = k
    · simp [dictInsert, dictGet, h]
    · simp [dictInsert, dictGet, h, ih]

theorem dictGet_dictInsert_ne (d : FormData) {k key : String} (v : String) (h : k ≠ key) :
    dictGet (dictInsert d k v) key = dictGet d key := by
  induction d with
  | nil => simp [dictInsert, dictGet, h]
  | cons kv rest ih =>
    obtain ⟨k0, w⟩ := kv
    by_cases h0 : k0 = k
    · subst h0
      simp [dictInsert, dictGet, h]
    · simp [dictInsert, dictGet, h0, ih]

theorem dictGet_normalized (fd : FormData) (sat : Satellite) (area : Area) {k : String}
    (hk1 : k ≠ "product") (hk2 : k ≠ "title") (hk3 : k ≠ "description") :
    dictGet (normalized fd sat area) k = dictGet fd k := by
  unfold normalized
  rw [dictGet_dictInsert_ne _ _ (fun h => hk3 h.symm),
      dictGet_dictInsert_ne _ _ (fun h => hk2 h.symm),
      dictGet_dictInsert_ne _ _ (fun h => hk1 h.symm)]

theorem dictGet_normalized_product (fd : FormData) (sat : Satellite) (area : Area) :
    dictGet (normalized fd sat area) "product" =
      some (sat.product_prefix ++ area.area_id) := by
  unfold normalized
  rw [dictGet_dictInsert_ne _ _ (by decide), dictGet_dictInsert_ne _ _ (by decide),
      dictGet_dictInsert_self]

theorem dictGet_normalized_title (fd : FormData) (sat : Satellite) (area : Area) :
    dictGet (normalized fd sat area) "title" = some (resolveTitle fd) := by
  unfold normalized
  rw [dictGet_dictInsert_ne _ _ (by decide), dictGet_dictInsert_self]
  have : resolveTitle (dictInsert fd "product" (sat.product_prefix ++ area.area_id)) =
      resolveTitle fd := by
    unfold resolveTitle
    rw [dictGet_dictInsert_ne _ _ (by decide)]
  rw [this]

theorem dictGet_normalized_description (fd : FormData) (sat : Satellite) (area : Area) :
    dictGet (normalized fd sat area) "description" = some (resolveDescription fd) := by
  unfold normalized
  rw [dictGet_dictInsert_self]
  have : resolveDescription
      (dictInsert (dictInsert fd "product" (sat.product_prefix ++ area.area_id)) "title"
        (resolveTitle (dictInsert fd "product" (sat.product_prefix ++ area.area_id)))) =
      resolveDescription fd := by
    unfold resolveDescription
    rw [dictGet_dictInsert_ne _ _ (by decide), dictGet_dictInsert_ne _ _ (by decide)]
  rw [this]

/-! ### Filtering and record lemmas -/

theorem filterFields_cons_none {d : FormData} {f : String} (fs : List String)
    (hd : dictGet d f = none) : filterFields (f :: fs) d = filterFields fs d := by
  simp [filterFields, List.filterMap_cons, hd]

theorem filterFields_cons_some {d : FormData} {f v : String} (fs : List String)
    (hd : dictGet d f = some v) :
    filterFields (f :: fs) d = (f, v) :: filterFields fs d := by
  simp [filterFields, List.filterMap_cons, hd]

theorem dictGet_filterFields (fields : List String) (d : FormData) (k : String) :
    dictGet (filterFields fields d) k = if k ∈ fields then dictGet d k else none := by
  induction fields with
  | nil => simp [filterFields, dictGet]
  | cons f fs ih =>
    cases hd : dictGet d f with
    | none =>
      rw [filterFields_cons_none fs hd, ih]
      by_cases hf : f = k
      · subst hf
        simp [hd]
      · by_cases hk : k ∈ fs
        · simp [hk, List.mem_cons]
        · simp [hk, List.mem_cons]
          rw [if_neg (fun h : k = f => hf h.symm)]
    | some v =>
      rw [filterFields_cons_some fs hd]
      by_cases hf : f = k
      · subst hf
        simp [dictGet, hd, List.mem_cons]
      · simp only [dictGet, if_neg hf, ih, List.mem_cons]
        by_cases hk : k ∈ fs
        · simp [hk]
        · simp [hk]
          rw [if_neg (fun h : k = f => hf h.symm)]

theorem of_mem_filterFields {fields : List String} {d : FormData} {kv : String × String}
    (h : kv ∈ filterFields fields d) : kv.1 ∈ fields ∧ dictGet d kv.1 = some kv.2 := by
  induction fields with
  | nil => simp [filterFields] at h
  | cons f fs ih =>
    cases hd : dictGet d f with
    | none =>
      rw [filterFields_cons_none fs hd] at h
      obtain ⟨hm, hg⟩ := ih h
      exact ⟨List.mem_cons_of_mem _ hm, hg⟩
    | some v =>
      rw [filterFields_cons_some fs hd] at h
      rcases List.mem_cons.mp h with heq | hmem
      · subst heq
        exact ⟨List.mem_cons_self _ _, hd⟩
      · obtain ⟨hm, hg⟩ := ih hmem
        exact ⟨List.mem_cons_of_mem _ hm, hg⟩

theorem mkRecord_cons (f : String) (fs : List String) (defaults : String → String)
    (d : FormData) :
    mkRecord (f :: fs) defaults d =
      (f, (dictGet d f).getD (defaults f)) :: mkRecord fs defaults d := rfl

theorem dictGet_mkRecord {fields : List String} (defaults : String → String) (d : FormData)
    {k : String} (hk : k ∈ fields) :
    dictGet (mkRecord fields defaults d) k = some ((dictGet d k).getD (defaults k)) := by
  induction fields with
  | nil => simp at hk
  | cons f fs ih =>
    rw [mkRecord_cons]
    by_cases hf : f = k
    · subst hf
      simp [dictGet]
    · rcases List.mem_cons.mp hk with heq | hmem
      · exact absurd heq.symm hf
      · simp only [dictGet, if_neg hf]
        exact ih hmem

theorem dictKeys_mkRecord (fields : List String) (defaults : String → String) (d : FormData) :
    dictKeys (mkRecord fields defaults d) = fields := by
  induction fields with
  | nil => rfl
  | cons f fs ih =>
    rw [mkRecord_cons]
    simpa [dictKeys] using ih

theorem matchesFilter_eq_true_iff (flt rec : FormData) :
    matchesFilter flt rec = true ↔ ∀ kv ∈ flt, dictGet rec kv.1 = some kv.2 := by
  simp [matchesFilter, List.all_eq_true, beq_iff_eq]

theorem matchesFilter_mkRecord_self (fields : List String) (defaults : String → String)
    (d : FormData) :
    matchesFilter (filterFields fields d) (mkRecord fields defaults (filterFields fields d)) =
      true := by
  rw [matchesFilter_eq_true_iff]
  intro kv hmem
  obtain ⟨hf, hget⟩ := of_mem_filterFields hmem
  rw [dictGet_mkRecord defaults _ hf, dictGet_filterFields]
  simp [hf, hget]

/-! ### Characterisation of the routine -/

theorem normalizeFormData_eq {db : DB} {fd : FormData} {p a : String} {sat : Satellite}
    {area : Area} (hp : dictGet fd "platform" = some p) (hs : getSatellite db p = .ok sat)
    (ha : dictGet fd "area_id" = some a) (har : getArea db a = .ok area) :
    normalizeFormData db fd = .ok (normalized fd sat area) := by
  simp only [normalizeFormData, hp, hs, ha, har]

theorem normalizeFormData_ok_inv {db : DB} {fd qd3 : FormData}
    (h : normalizeFormData db fd = .ok qd3) :
    ∃ p sat a area, dictGet fd "platform" = some p ∧ getSatellite db p = .ok sat ∧
      dictGet fd "area_id" = some a ∧ getArea db a = .ok area ∧
      qd3 = normalized fd sat area := by
  unfold normalizeFormData at h
  cases hp : dictGet fd "platform" with
  | none => simp [hp] at h
  | some p =>
    simp only [hp] at h
    cases hs : getSatellite db p with
    | error e => simp [hs] at h
    | ok sat =>
      simp only [hs] at h
      cases ha : dictGet fd "area_id" with
      | none => simp [ha] at h
      | some a =>
        simp only [ha] at h
        cases har : getArea db a with
        | error e => simp [har] at h
        | ok area =>
          simp only [har, Except.ok.injEq] at h
          exact ⟨p, sat, a, area, rfl, hs, rfl, har, h.symm⟩

theorem normalizeFormData_queries_agnostic (sats : List Satellite) (areas : List Area)
    (qs1 qs2 : List FormData) (fd : FormData) :
    normalizeFormData ⟨sats, areas, qs1⟩ fd = normalizeFormData ⟨sats, areas, qs2⟩ fd := by
  unfold normalizeFormData getSatellite getArea
  rfl

theorem get_or_create_of_norm {fields : List String} {defaults : String → String} {db : DB}
    {fd qd3 : FormData} (hnorm : normalizeFormData db fd = .ok qd3) :
    get_or_create_query_from_post fields defaults db fd =
      match db.queries.filter (fun r => matchesFilter (filterFields fields qd3) r) with
      | [] =>
        ⟨.ok (mkRecord fields defaults (filterFields fields qd3), true),
          ⟨db.satellites, db.areas,
            db.queries ++ [mkRecord fields defaults (filterFields fields qd3)]⟩, qd3⟩
      | [q] => ⟨.ok (q, false), db, qd3⟩
      | _ => ⟨.error (.multipleObjectsReturned "Query"), db, qd3⟩ := by
  unfold get_or_create_query_from_post
  rw [hnorm]

theorem get_or_create_of_norm_error {fields : List String} {defaults : String → String}
    {db : DB} {fd : FormData} {e : PyError} (hnorm : normalizeFormData db fd = .error e) :
    get_or_create_query_from_post fields defaults db fd = ⟨.error e, db, fd⟩ := by
  unfold get_or_create_query_from_post
  rw [hnorm]

theorem get_or_create_result_ok_inv {fields : List String} {defaults : String → String}
    {db : DB} {fd r : FormData} {flag : Bool}
    (h : (get_or_create_query_from_post fields defaults db fd).result = .ok (r, flag)) :
    ∃ qd3, normalizeFormData db fd = .ok qd3 ∧
      (get_or_create_query_from_post fields defaults db fd).form_data = qd3 ∧
      ((flag = true ∧
        db.queries.filter (fun rec => matchesFilter (filterFields fields qd3) rec) = [] ∧
        r = mkRecord fields defaults (filterFields fields qd3) ∧
        (get_or_create_query_from_post fields defaults db fd).db =
          ⟨db.satellites, db.areas, db.queries ++ [r]⟩) ∨
       (flag = false ∧
        db.queries.filter (fun rec => matchesFilter (filterFields fields qd3) rec) = [r] ∧
        (get_or_create_query_from_post fields defaults db fd).db = db)) := by
  cases hnorm : normalizeFormData db fd with
  | error e =>
    rw [get_or_create_of_norm_error hnorm] at h
    exact Except.noConfusion h
  | ok qd3 =>
    rw [get_or_create_of_norm hnorm] at h
    cases hm : db.queries.filter (fun rec => matchesFilter (filterFields fields qd3) rec) with
    | nil =>
      rw [hm] at h
      have h2 : Except.ok (ε := PyError)
          (mkRecord fields defaults (filterFields fields qd3), true) = .ok (r, flag) := h
      injection h2 with h3
      injection h3 with hr hflag
      refine ⟨qd3, rfl, ?_, Or.inl ⟨hflag.symm, hm, hr.symm, ?_⟩⟩
      · rw [get_or_create_of_norm hnorm, hm]
      · rw [get_or_create_of_norm hnorm, hm, ← hr]
    | cons q rest =>
      rw [hm] at h
      cases rest with
      | nil =>
        have h2 : Except.ok (ε := PyError) (q, false) = .ok (r, flag) := h
        injection h2 with h3
        injection h3 with hr hflag
        refine ⟨qd3, rfl, ?_, Or.inr ⟨hflag.symm, ?_, ?_⟩⟩
        · rw [get_or_create_of_norm hnorm, hm]
        · rw [hm, hr]
        · rw [get_or_create_of_norm hnorm, hm]
      | cons q2 rest2 =>
        have h2 : Except.error (α := FormData × Bool)
            (PyError.multipleObjectsReturned "Query") = .ok (r, flag) := h
        exact Except.noConfusion h2

theorem mem_filterFields_of {fields : List String} {d : FormData} {k v : String}
    (hk : k ∈ fields) (hv : dictGet d k = some v) : (k, v) ∈ filterFields fields d := by
  induction fields with
  | nil => simp at hk
  | cons f fs ih =>
    rcases List.mem_cons.mp hk with heq | hmem
    · subst heq
      rw [filterFields_cons_some fs hv]
      exact List.mem_cons_self _ _
    · cases hd : dictGet d f with
      | none =>
        rw [filterFields_cons_none fs hd]
        exact ih hmem
      | some w =>
        rw [filterFields_cons_some fs hd]
        exact List.mem_cons_of_mem _ (ih hmem)

theorem dictKeys_filterFields (fields : List String) (d : FormData) :
    dictKeys (filterFields fields d) = fields.filter (fun k => dictContains d k) := by
  induction fields with
  | nil => rfl
  | cons f fs ih =>
    cases hd : dictGet d f with
    | none =>
      rw [filterFields_cons_none fs hd]
      simp [List.filter_cons, dictContains, hd, ih]
    | some v =>
      rw [filterFields_cons_some fs hd]
      have hcons : dictKeys ((f, v) :: filterFields fs d) = f :: dictKeys (filterFields fs d) :=
        rfl
      rw [hcons, ih]
      simp [List.filter_cons, dictContains, hd]

theorem get_or_create_form_data {fields : List String} {defaults : String → String}
    {db : DB} {fd qd3 : FormData} (hnorm : normalizeFormData db fd = .ok qd3) :
    (get_or_create_query_from_post fields defaults db fd).form_data = qd3 := by
  rw [get_or_create_of_norm hnorm]
  cases hm : db.queries.filter (fun r => matchesFilter (filterFields fields qd3) r) with
  | nil => rfl
  | cons q rest => cases rest with
    | nil => rfl
    | cons q2 rest2 => rfl

/-- Any record returned with the `ok` result carries, on every declared field
present in the normalised dict, exactly the normalised value: the freshly
created record by construction, a found record because it satisfied the
equality filter. -/
theorem record_field_of_ok {fields : List String} {defaults : String → String} {db : DB}
    {fd qd3 r : FormData} {flag : Bool} {k v : String}
    (hnorm : normalizeFormData db fd = .ok qd3)
    (h : (get_or_create_query_from_post fields defaults db fd).result = .ok (r, flag))
    (hk : k ∈ fields) (hv : dictGet qd3 k = some v) :
    dictGet r k = some v := by
  obtain ⟨qd3x, hnormx, hfd, hcase⟩ := get_or_create_result_ok_inv h
  rw [hnorm] at hnormx
  injection hnormx with he
  subst he
  rcases hcase with ⟨_, hflt, hr, _⟩ | ⟨_, hflt, _⟩
  · subst hr
    rw [dictGet_mkRecord defaults _ hk, dictGet_filterFields]
    simp [hk, hv]
  · have hrmem : r ∈ db.queries.filter (fun rec => matchesFilter (filterFields fields qd3) rec) := by
      rw [hflt]
      exact List.mem_singleton.mpr rfl
    have hmatch := (List.mem_filter.mp hrmem).2
    exact (matchesFilter_eq_true_iff _ _).mp hmatch (k, v) (mem_filterFields_of hk hv)

/-! ### The claims -/

/-- C2: for every `form_data` whose platform resolves to a `Satellite` and
whose `area_id` resolves to an `Area`, the record returned by
`get_or_create_query_from_post` has `product` equal to the satellite's
`product_prefix` concatenated with the area's `area_id`. -/
theorem product_derivation (defaults : String → String) (db : DB) (fd : FormData)
    (p a : String) (sat : Satellite) (area : Area) (r : FormData) (flag : Bool)
    (hp : dictGet fd "platform" = some p) (hs : getSatellite db p = .ok sat)
    (ha : dictGet fd "area_id" = some a) (har : getArea db a = .ok area)
    (hres : (get_or_create_query_from_post valid_query_fields defaults db fd).result =
      .ok (r, flag)) :
    dictGet r "product" = some (sat.product_prefix ++ area.area_id) := by
  have hnorm := normalizeFormData_eq hp hs ha har
  exact record_field_of_ok hnorm hres (by simp [valid_query_fields])
    (dictGet_normalized_product fd sat area)

/-- C2 witness at the spec's section 8 scenario. -/
theorem product_derivation_witness :
    dictGet [("platform", "LS7"), ("product", "ls7_NT"), ("time_start", ""), ("time_end", ""),
      ("latitude_max", ""), ("latitude_min", ""), ("longitude_max", ""), ("longitude_min", ""),
      ("title", "Custom Mosaic Query"), ("description", "None"), ("query_type", ""),
      ("animated_product", ""), ("compositor", "")] "product" = some ("ls7_" ++ "NT") :=
  product_derivation (fun _ => "") ⟨[⟨"LS7", "ls7_"⟩], [⟨"NT"⟩], []⟩
    [("platform", "LS7"), ("area_id", "NT")] "LS7" "NT" ⟨"LS7", "ls7_"⟩ ⟨"NT"⟩ _ true
    (by decide) (by decide) (by decide) (by decide) (by decide)

/-- C3: the produced record's `title` is the literal `"Custom Mosaic Query"`
when the submitted `title` is absent or empty and the submitted value
otherwise; its `description` is the literal `"None"` when the submitted
`description` is absent or empty and the submitted value otherwise. -/
theorem title_description_defaulting (defaults : String → String) (db : DB) (fd : FormData)
    (r : FormData) (flag : Bool)
    (hres : (get_or_create_query_from_post valid_query_fields defaults db fd).result =
      .ok (r, flag)) :
    ((dictGet fd "title" = none ∨ dictGet fd "title" = some "") →
        dictGet r "title" = some "Custom Mosaic Query") ∧
    (∀ t, t ≠ "" → dictGet fd "title" = some t → dictGet r "title" = some t) ∧
    ((dictGet fd "description" = none ∨ dictGet fd "description" = some "") →
        dictGet r "description" = some "None") ∧
    (∀ t, t ≠ "" → dictGet fd "description" = some t → dictGet r "description" = some t) := by
  obtain ⟨qd3, hnorm, _, _⟩ := get_or_create_result_ok_inv hres
  obtain ⟨p, sat, a, area, hp, hs, ha, har, hqd⟩ := normalizeFormData_ok_inv hnorm
  subst hqd
  have htitle : dictGet r "title" = some (resolveTitle fd) :=
    record_field_of_ok hnorm hres (by simp [valid_query_fields])
      (dictGet_normalized_title fd sat area)
  have hdesc : dictGet r "description" = some (resolveDescription fd) :=
    record_field_of_ok hnorm hres (by simp [valid_query_fields])
      (dictGet_normalized_description fd sat area)
  refine ⟨?_, ?_, ?_, ?_⟩
  · rintro (hnone | hemp)
    · rwa [resolveTitle, hnone] at htitle
    · rw [resolveTitle, hemp] at htitle
      simpa using htitle
  · intro t ht hsomet
    rw [resolveTitle, hsomet] at htitle
    simpa [ht] using htitle
  · rintro (hnone | hemp)
    · rwa [resolveDescription, hnone] at hdesc
    · rw [resolveDescription, hemp] at hdesc
      simpa using hdesc
  · intro t ht hsomet
    rw [resolveDescription, hsomet] at hdesc
    simpa [ht] using hdesc

/-- C3 witness: empty title submitted, non-empty description submitted. -/
theorem title_description_defaulting_witness :
    dictGet [("platform", "LS7"), ("product", "ls7_NT"), ("time_start", ""), ("time_end", ""),
      ("latitude_max", ""), ("latitude_min", ""), ("longitude_max", ""), ("longitude_min", ""),
      ("title", "Custom Mosaic Query"), ("description", "d"), ("query_type", ""),
      ("animated_product", ""), ("compositor", "")] "title" = some "Custom Mosaic Query" := by
  have h := title_description_defaulting (fun _ => "") ⟨[⟨"LS7", "ls7_"⟩], [⟨"NT"⟩], []⟩
    [("platform", "LS7"), ("area_id", "NT"), ("title", ""), ("description", "d")]
    [("platform", "LS7"), ("product", "ls7_NT"), ("time_start", ""), ("time_end", ""),
      ("latitude_max", ""), ("latitude_min", ""), ("longitude_max", ""), ("longitude_min", ""),
      ("title", "Custom Mosaic Query"), ("description", "d"), ("query_type", ""),
      ("animated_product", ""), ("compositor", "")] true
    (by decide)
  exact h.1 (Or.inr (by decide))

/-- C8: the routine works on the caller's dict through the `query_data`
alias, so after any call that got past the lookups the caller's `form_data`
holds the derived `product` and the normalised `title` and `description`,
whether or not those keys were submitted. -/
theorem input_aliasing (fields : List String) (defaults : String → String) (db : DB)
    (fd : FormData) (p a : String) (sat : Satellite) (area : Area)
    (hp : dictGet fd "platform" = some p) (hs : getSatellite db p = .ok sat)
    (ha : dictGet fd "area_id" = some a) (har : getArea db a = .ok area) :
    dictGet (get_or_create_query_from_post fields defaults db fd).form_data "product" =
        some (sat.product_prefix ++ area.area_id) ∧
    dictGet (get_or_create_query_from_post fields defaults db fd).form_data "title" =
        some (resolveTitle fd) ∧
    dictGet (get_or_create_query_from_post fields defaults db fd).form_data "description" =
        some (resolveDescription fd) := by
  have hnorm := normalizeFormData_eq hp hs ha har
  rw [get_or_create_form_data hnorm, dictGet_normalized_product, dictGet_normalized_title,
    dictGet_normalized_description]
  exact ⟨rfl, rfl, rfl⟩

/-- C8 witness: neither `title` nor `description` was submitted, yet the
caller's dict afterwards holds `product`, `title` and `description`. -/
theorem input_aliasing_witness :
    dictGet (get_or_create_query_from_post valid_query_fields (fun _ => "")
        ⟨[⟨"LS7", "ls7_"⟩], [⟨"NT"⟩], []⟩
        [("platform", "LS7"), ("area_id", "NT")]).form_data "product" =
      some ("ls7_" ++ "NT") ∧
    dictGet (get_or_create_query_from_post valid_query_fields (fun _ => "")
        ⟨[⟨"LS7", "ls7_"⟩], [⟨"NT"⟩], []⟩
        [("platform", "LS7"), ("area_id", "NT")]).form_data "title" =
      some (resolveTitle [("platform", "LS7"), ("area_id", "NT")]) ∧
    dictGet (get_or_create_query_from_post valid_query_fields (fun _ => "")
        ⟨[⟨"LS7", "ls7_"⟩], [⟨"NT"⟩], []⟩
        [("platform", "LS7"), ("area_id", "NT")]).form_data "description" =
      some (resolveDescription [("platform", "LS7"), ("area_id", "NT")]) :=
  input_aliasing valid_query_fields (fun _ => "") ⟨[⟨"LS7", "ls7_"⟩], [⟨"NT"⟩], []⟩
    [("platform", "LS7"), ("area_id", "NT")] "LS7" "NT" ⟨"LS7", "ls7_"⟩ ⟨"NT"⟩
    (by decide) (by decide) (by decide) (by decide)

/-- With pairwise-distinct keys, filtering a list by one key value leaves at
most one element. -/
theorem filter_key_nil_or_singleton {α : Type} (f : α → String) (l : List α)
    (hpw : l.Pairwise (fun x y => f x ≠ f y)) (p : String) :
    l.filter (fun x => f x = p) = [] ∨ ∃ x, l.filter (fun x => f x = p) = [x] := by
  induction l with
  | nil => exact Or.inl rfl
  | cons x xs ih =>
    obtain ⟨hx, hxs⟩ := List.pairwise_cons.mp hpw
    by_cases hfx : f x = p
    · refine Or.inr ⟨x, ?_⟩
      rw [List.filter_cons_of_pos (by simp [hfx])]
      have hnil : xs.filter (fun y => f y = p) = [] := by
        rw [List.filter_eq_nil_iff]
        intro y hy
        simp only [decide_eq_true_eq]
        rw [← hfx]
        exact fun h => hx y hy h.symm
      rw [hnil]
    · rw [List.filter_cons_of_neg (by simp [hfx])]
      exact ih hxs

/-- C5: when the submitted `platform` matches no satellite, or the submitted
`area_id` matches no area, the call raises the corresponding `DoesNotExist`
error, the database is unchanged (no record created), and the caller's dict
is not yet mutated.  The database is assumed well-formed in the sense of spec
section 3: `satellite_id` and `area_id` are keys. -/
theorem notfound_atomicity (fields : List String) (defaults : String → String) (db : DB)
    (fd : FormData) (p a : String) (hwf : WFLookups db)
    (hp : dictGet fd "platform" = some p) (ha : dictGet fd "area_id" = some a)
    (hmiss : db.satellites.filter (fun s => s.satellite_id = p) = [] ∨
             db.areas.filter (fun ar => ar.area_id = a) = []) :
    ((get_or_create_query_from_post fields defaults db fd).result =
        .error (.doesNotExist "Satellite") ∨
      (get_or_create_query_from_post fields defaults db fd).result =
        .error (.doesNotExist "Area")) ∧
    (get_or_create_query_from_post fields defaults db fd).db = db ∧
    (get_or_create_query_from_post fields defaults db fd).form_data = fd := by
  have satNotFound : db.satellites.filter (fun s => s.satellite_id = p) = [] →
      ((get_or_create_query_from_post fields defaults db fd).result =
          .error (.doesNotExist "Satellite") ∨
        (get_or_create_query_from_post fields defaults db fd).result =
          .error (.doesNotExist "Area")) ∧
        (get_or_create_query_from_post fields defaults db fd).db = db ∧
        (get_or_create_query_from_post fields defaults db fd).form_data = fd := by
    intro hms
    have hs : getSatellite db p = .error (.doesNotExist "Satellite") := by
      simp only [getSatellite, hms]
    have hnorm : normalizeFormData db fd = .error (.doesNotExist "Satellite") := by
      simp only [normalizeFormData, hp, hs]
    rw [get_or_create_of_norm_error hnorm]
    exact ⟨Or.inl rfl, rfl, rfl⟩
  rcases hmiss with hms | hma
  · exact satNotFound hms
  · cases hflt : db.satellites.filter (fun s => s.satellite_id = p) with
    | nil => exact satNotFound hflt
    | cons s rest =>
      have hrest : rest = [] := by
        rcases filter_key_nil_or_singleton (fun s => s.satellite_id) db.satellites hwf.1 p with
          hnil | ⟨x, hone⟩
        · rw [hflt] at hnil
          cases hnil
        · rw [hflt] at hone
          injection hone with h1 h2
      subst hrest
      have hs : getSatellite db p = .ok s := by
        simp only [getSatellite, hflt]
      have harr : getArea db a = .error (.doesNotExist "Area") := by
        simp only [getArea, hma]
      have hnorm : normalizeFormData db fd = .error (.doesNotExist "Area") := by
        simp only [normalizeFormData, hp, hs, ha, harr]
      rw [get_or_create_of_norm_error hnorm]
      exact ⟨Or.inr rfl, rfl, rfl⟩

/-- C5 witness: a platform id matching no satellite. -/
theorem notfound_atomicity_witness :
    ((get_or_create_query_from_post valid_query_fields (fun _ => "")
        ⟨[⟨"LS7", "ls7_"⟩], [⟨"NT"⟩], []⟩ [("platform", "BAD"), ("area_id", "NT")]).result =
        .error (.doesNotExist "Satellite") ∨
      (get_or_create_query_from_post valid_query_fields (fun _ => "")
        ⟨[⟨"LS7", "ls7_"⟩], [⟨"NT"⟩], []⟩ [("platform", "BAD"), ("area_id", "NT")]).result =
        .error (.doesNotExist "Area")) ∧
    (get_or_create_query_from_post valid_query_fields (fun _ => "")
        ⟨[⟨"LS7", "ls7_"⟩], [⟨"NT"⟩], []⟩ [("platform", "BAD"), ("area_id", "NT")]).db =
      ⟨[⟨"LS7", "ls7_"⟩], [⟨"NT"⟩], []⟩ ∧
    (get_or_create_query_from_post valid_query_fields (fun _ => "")
        ⟨[⟨"LS7", "ls7_"⟩], [⟨"NT"⟩], []⟩ [("platform", "BAD"), ("area_id", "NT")]).form_data =
      [("platform", "BAD"), ("area_id", "NT")] :=
  notfound_atomicity valid_query_fields (fun _ => "") ⟨[⟨"LS7", "ls7_"⟩], [⟨"NT"⟩], []⟩
    [("platform", "BAD"), ("area_id", "NT")] "BAD" "NT"
    ⟨List.pairwise_singleton _ _, List.pairwise_singleton _ _⟩
    (by decide) (by decide) (Or.inl (by decide))

/-- C6: when at least two persisted records satisfy the full-field equality
filter, the lookup raises `MultipleObjectsReturned`, which the routine does
not catch (only `DoesNotExist` is), and no record is created. -/
theorem multiple_match_fatality (fields : List String) (defaults : String → String)
    (db : DB) (fd qd3 : FormData) (hnorm : normalizeFormData db fd = .ok qd3)
    (hmult : 2 ≤ (db.queries.filter
      (fun rec => matchesFilter (filterFields fields qd3) rec)).length) :
    (get_or_create_query_from_post fields defaults db fd).result =
        .error (.multipleObjectsReturned "Query") ∧
    (get_or_create_query_from_post fields defaults db fd).db = db := by
  rw [get_or_create_of_norm hnorm]
  cases hm : db.queries.filter (fun rec => matchesFilter (filterFields fields qd3) rec) with
  | nil =>
    rw [hm] at hmult
    simp at hmult
  | cons q rest =>
    cases rest with
    | nil =>
      rw [hm] at hmult
      simp at hmult
    | cons q2 rest2 => exact ⟨rfl, rfl⟩

/-- C6 witness: two identical persisted records both match the filter. -/
theorem multiple_match_fatality_witness :
    (get_or_create_query_from_post valid_query_fields (fun _ => "")
        ⟨[⟨"LS7", "ls7_"⟩], [⟨"NT"⟩],
          [[("platform", "LS7"), ("product", "ls7_NT"), ("title", "Custom Mosaic Query"),
            ("description", "None")],
           [("platform", "LS7"), ("product", "ls7_NT"), ("title", "Custom Mosaic Query"),
            ("description", "None")]]⟩
        [("platform", "LS7"), ("area_id", "NT")]).result =
      .error (.multipleObjectsReturned "Query") ∧
    (get_or_create_query_from_post valid_query_fields (fun _ => "")
        ⟨[⟨"LS7", "ls7_"⟩], [⟨"NT"⟩],
          [[("platform", "LS7"), ("product", "ls7_NT"), ("title", "Custom Mosaic Query"),
            ("description", "None")],
           [("platform", "LS7"), ("product", "ls7_NT"), ("title", "Custom Mosaic Query"),
            ("description", "None")]]⟩
        [("platform", "LS7"), ("area_id", "NT")]).db =
      ⟨[⟨"LS7", "ls7_"⟩], [⟨"NT"⟩],
        [[("platform", "LS7"), ("product", "ls7_NT"), ("title", "Custom Mosaic Query"),
          ("description", "None")],
         [("platform", "LS7"), ("product", "ls7_NT"), ("title", "Custom Mosaic Query"),
          ("description", "None")]]⟩ :=
  multiple_match_fatality valid_query_fields (fun _ => "")
    ⟨[⟨"LS7", "ls7_"⟩], [⟨"NT"⟩],
      [[("platform", "LS7"), ("product", "ls7_NT"), ("title", "Custom Mosaic Query"),
        ("description", "None")],
       [("platform", "LS7"), ("product", "ls7_NT"), ("title", "Custom Mosaic Query"),
        ("description", "None")]]⟩
    [("platform", "LS7"), ("area_id", "NT")]
    [("platform", "LS7"), ("area_id", "NT"), ("product", "ls7_NT"),
     ("title", "Custom Mosaic Query"), ("description", "None")]
    (by decide) (by decide)

/-- C9: missing declared fields never cause a rejection — after the lookups
succeed the call either returns a pair or fails only with the multiple-match
error — and the keyword dict passed to lookup and creation is exactly the
restriction of the normalised dict to the declared field names (its key set
is the intersection of the declared names with the normalised dict's keys). -/
theorem no_required_field_validation (fields : List String) (defaults : String → String)
    (db : DB) (fd qd3 : FormData) (hnorm : normalizeFormData db fd = .ok qd3) :
    ((∃ pr, (get_or_create_query_from_post fields defaults db fd).result = .ok pr) ∨
      (get_or_create_query_from_post fields defaults db fd).result =
        .error (.multipleObjectsReturned "Query")) ∧
    (∀ k, dictGet (filterFields fields qd3) k =
        if k ∈ fields then dictGet qd3 k else none) ∧
    dictKeys (filterFields fields qd3) = fields.filter (fun k => dictContains qd3 k) := by
  refine ⟨?_, fun k => dictGet_filterFields fields qd3 k, dictKeys_filterFields fields qd3⟩
  rw [get_or_create_of_norm hnorm]
  cases hm : db.queries.filter (fun rec => matchesFilter (filterFields fields qd3) rec) with
  | nil => exact Or.inl ⟨_, rfl⟩
  | cons q rest =>
    cases rest with
    | nil => exact Or.inl ⟨_, rfl⟩
    | cons q2 rest2 => exact Or.inr rfl

/-- C9 witness: a submission with every declared field missing but `platform`
still succeeds. -/
theorem no_required_field_validation_witness :
    ((∃ pr, (get_or_create_query_from_post valid_query_fields (fun _ => "")
        ⟨[⟨"LS7", "ls7_"⟩], [⟨"NT"⟩], []⟩ [("platform", "LS7"), ("area_id", "NT")]).result =
        .ok pr) ∨
      (get_or_create_query_from_post valid_query_fields (fun _ => "")
        ⟨[⟨"LS7", "ls7_"⟩], [⟨"NT"⟩], []⟩ [("platform", "LS7"), ("area_id", "NT")]).result =
        .error (.multipleObjectsReturned "Query")) ∧
    (∀ k, dictGet (filterFields valid_query_fields
        [("platform", "LS7"), ("area_id", "NT"), ("product", "ls7_NT"),
         ("title", "Custom Mosaic Query"), ("description", "None")]) k =
        if k ∈ valid_query_fields then
          dictGet [("platform", "LS7"), ("area_id", "NT"), ("product", "ls7_NT"),
            ("title", "Custom Mosaic Query"), ("description", "None")] k
        else none) ∧
    dictKeys (filterFields valid_query_fields
        [("platform", "LS7"), ("area_id", "NT"), ("product", "ls7_NT"),
         ("title", "Custom Mosaic Query"), ("description", "None")]) =
      valid_query_fields.filter (fun k => dictContains
        [("platform", "LS7"), ("area_id", "NT"), ("product", "ls7_NT"),
         ("title", "Custom Mosaic Query"), ("description", "None")] k) :=
  no_required_field_validation valid_query_fields (fun _ => "")
    ⟨[⟨"LS7", "ls7_"⟩], [⟨"NT"⟩], []⟩ [("platform", "LS7"), ("area_id", "NT")]
    [("platform", "LS7"), ("area_id", "NT"), ("product", "ls7_NT"),
     ("title", "Custom Mosaic Query"), ("description", "None")]
    (by decide)

theorem get_fields_with_labels_go_spec (self : FormData) (field_names : List String) :
    ∀ (labels : List String) (start : Nat), start + labels.length ≤ field_names.length →
      get_fields_with_labels_go self field_names start labels =
        some ((labels.zip (field_names.drop start)).map (fun lf => (lf.1, dictGet self lf.2))) := by
  intro labels
  induction labels with
  | nil => intro start h; rfl
  | cons l ls ih =>
    intro start h
    rw [List.length_cons] at h
    have hstart : start < field_names.length := by omega
    have hdrop := List.drop_eq_getElem_cons hstart
    have hfname : field_names.get? start = some field_names[start] := by
      rw [List.get?_eq_getElem?]
      exact List.getElem?_eq_getElem hstart
    unfold get_fields_with_labels_go
    rw [hfname]
    simp only []
    rw [ih (start + 1) (by omega), hdrop, List.zip_cons_cons, List.map_cons]
    rfl

/-- C10: with at least as many field names as labels, the generator yields
exactly one pair per label, in order; the `i`-th pair is the `i`-th label
together with the value of the field named by the `i`-th field name. -/
theorem label_pairing (self : FormData) (labels field_names : List String)
    (h : labels.length ≤ field_names.length) :
    get_fields_with_labels self labels field_names =
      some ((labels.zip field_names).map (fun lf => (lf.1, dictGet self lf.2))) ∧
    ((labels.zip field_names).map (fun lf => (lf.1, dictGet self lf.2))).length =
      labels.length ∧
    ∀ i, (hi : i < labels.length) → (hf : i < field_names.length) →
      ((labels.zip field_names).map (fun lf => (lf.1, dictGet self lf.2)))[i]? =
        some (labels[i], dictGet self field_names[i]) := by
  refine ⟨?_, ?_, ?_⟩
  · have hgo := get_fields_with_labels_go_spec self field_names labels 0 (by omega)
    rw [get_fields_with_labels, hgo, List.drop_zero]
  · rw [List.length_map, List.length_zip]
    omega
  · intro i hi hf
    rw [List.getElem?_map]
    have hz : (labels.zip field_names)[i]? = some (labels[i], field_names[i]) := by
      rw [List.getElem?_zip_eq_some]
      exact ⟨List.getElem?_eq_getElem hi, List.getElem?_eq_getElem hf⟩
    rw [hz]
    rfl

/-- C10 witness at a concrete record. -/
theorem label_pairing_witness :
    get_fields_with_labels [("platform", "LS7"), ("product", "ls7_NT")]
        ["Platform", "Product"] ["platform", "product", "title"] =
      some ((["Platform", "Product"].zip ["platform", "product", "title"]).map
        (fun lf => (lf.1, dictGet [("platform", "LS7"), ("product", "ls7_NT")] lf.2))) ∧
    ((["Platform", "Product"].zip ["platform", "product", "title"]).map
        (fun lf => (lf.1, dictGet [("platform", "LS7"), ("product", "ls7_NT")] lf.2))).length =
      (["Platform", "Product"] : List String).length ∧
    ∀ i, (hi : i < (["Platform", "Product"] : List String).length) →
      (hf : i < (["platform", "product", "title"] : List String).length) →
      ((["Platform", "Product"].zip ["platform", "product", "title"]).map
          (fun lf => (lf.1, dictGet [("platform", "LS7"), ("product", "ls7_NT")] lf.2)))[i]? =
        some ((["Platform", "Product"] : List String)[i],
          dictGet [("platform", "LS7"), ("product", "ls7_NT")]
            (["platform", "product", "title"] : List String)[i]) :=
  label_pairing [("platform", "LS7"), ("product", "ls7_NT")] ["Platform", "Product"]
    ["platform", "product", "title"] (by decide)

/-- One call preserves the uniqueness invariant on any field set: a record is
only created when no persisted record matches the filtered dict, and a record
agreeing with the new one on every declared field would have matched. -/
theorem get_or_create_preserves_unique (fields : List String) (defaults : String → String)
    (db : DB) (fd : FormData) (hinv : UniqueQueries fields db.queries) :
    UniqueQueries fields (get_or_create_query_from_post fields defaults db fd).db.queries := by
  cases hnorm : normalizeFormData db fd with
  | error e =>
    rw [get_or_create_of_norm_error hnorm]
    exact hinv
  | ok qd3 =>
    rw [get_or_create_of_norm hnorm]
    cases hm : db.queries.filter (fun r => matchesFilter (filterFields fields qd3) r) with
    | cons q rest =>
      cases rest with
      | nil => exact hinv
      | cons q2 rest2 => exact hinv
    | nil =>
      show UniqueQueries fields (db.queries ++ [mkRecord fields defaults (filterFields fields qd3)])
      unfold UniqueQueries at hinv ⊢
      rw [List.pairwise_append]
      refine ⟨hinv, List.pairwise_singleton _ _, ?_⟩
      intro y hy rec hrec
      rw [List.mem_singleton] at hrec
      subst hrec
      intro hsame
      have hmatch : matchesFilter (filterFields fields qd3) y = true := by
        rw [matchesFilter_eq_true_iff]
        intro kv hkv
        obtain ⟨hkf, hkg⟩ := of_mem_filterFields hkv
        have h1 : dictGet (mkRecord fields defaults (filterFields fields qd3)) kv.1 =
            some kv.2 := by
          rw [dictGet_mkRecord defaults _ hkf, dictGet_filterFields]
          simp [hkf, hkg]
        rw [hsame kv.1 hkf, h1]
      have hmem : y ∈ db.queries.filter (fun r => matchesFilter (filterFields fields qd3) r) :=
        List.mem_filter.mpr ⟨hy, hmatch⟩
      rw [hm] at hmem
      exact absurd hmem (List.not_mem_nil y)

/-- C7: in every persisted state reachable through the resolution routine, no
two query records share all thirteen values of the `unique_together` tuple;
every call preserves the invariant. -/
theorem thirteen_field_uniqueness (defaults : String → String) (db : DB)
    (hreach : Reachable valid_query_fields defaults db) :
    UniqueQueries valid_query_fields db.queries := by
  induction hreach with
  | init sats areas => exact List.Pairwise.nil
  | step db fd h ih => exact get_or_create_preserves_unique valid_query_fields defaults db fd ih

/-- C7 witness: the state after one creating call from an empty store. -/
theorem thirteen_field_uniqueness_witness :
    UniqueQueries valid_query_fields
      (get_or_create_query_from_post valid_query_fields (fun _ => "")
        ⟨[⟨"LS7", "ls7_"⟩], [⟨"NT"⟩], []⟩ [("platform", "LS7"), ("area_id", "NT")]).db.queries :=
  thirteen_field_uniqueness (fun _ => "") _
    (Reachable.step ⟨[⟨"LS7", "ls7_"⟩], [⟨"NT"⟩], []⟩ [("platform", "LS7"), ("area_id", "NT")]
      (Reachable.init _ _))

/-- C1 counterexample: with a matching record already persisted, the claim's
premises hold (platform and area resolve) yet the very first call returns
`created = false`, not `created = true`. -/
theorem idempotence_counterexample :
    dictGet [("platform", "LS7"), ("area_id", "NT")] "platform" = some "LS7" ∧
    getSatellite ⟨[⟨"LS7", "ls7_"⟩], [⟨"NT"⟩],
        [[("platform", "LS7"), ("product", "ls7_NT"), ("time_start", ""), ("time_end", ""),
          ("latitude_max", ""), ("latitude_min", ""), ("longitude_max", ""),
          ("longitude_min", ""), ("title", "Custom Mosaic Query"), ("description", "None"),
          ("query_type", ""), ("animated_product", ""), ("compositor", "")]]⟩ "LS7" =
      .ok ⟨"LS7", "ls7_"⟩ ∧
    dictGet [("platform", "LS7"), ("area_id", "NT")] "area_id" = some "NT" ∧
    getArea ⟨[⟨"LS7", "ls7_"⟩], [⟨"NT"⟩],
        [[("platform", "LS7"), ("product", "ls7_NT"), ("time_start", ""), ("time_end", ""),
          ("latitude_max", ""), ("latitude_min", ""), ("longitude_max", ""),
          ("longitude_min", ""), ("title", "Custom Mosaic Query"), ("description", "None"),
          ("query_type", ""), ("animated_product", ""), ("compositor", "")]]⟩ "NT" =
      .ok ⟨"NT"⟩ ∧
    (get_or_create_query_from_post valid_query_fields (fun _ => "")
        ⟨[⟨"LS7", "ls7_"⟩], [⟨"NT"⟩],
          [[("platform", "LS7"), ("product", "ls7_NT"), ("time_start", ""), ("time_end", ""),
            ("latitude_max", ""), ("latitude_min", ""), ("longitude_max", ""),
            ("longitude_min", ""), ("title", "Custom Mosaic Query"), ("description", "None"),
            ("query_type", ""), ("animated_product", ""), ("compositor", "")]]⟩
        [("platform", "LS7"), ("area_id", "NT")]).result =
      .ok ([("platform", "LS7"), ("product", "ls7_NT"), ("time_start", ""), ("time_end", ""),
        ("latitude_max", ""), ("latitude_min", ""), ("longitude_max", ""),
        ("longitude_min", ""), ("title", "Custom Mosaic Query"), ("description", "None"),
        ("query_type", ""), ("animated_product", ""), ("compositor", "")], false) := by
  refine ⟨by decide, by decide, by decide, by decide, by decide⟩

/-- C1 (amended): whenever a call returns a record — created or found — an
immediately repeated call with the same `form_data` returns the same record
with `created = false` and performs no write; `created = true` on the first
call holds only when no persisted record already matched. -/
theorem idempotence_second_call (fields : List String) (defaults : String → String)
    (db : DB) (fd r1 : FormData) (flag : Bool)
    (h1 : (get_or_create_query_from_post fields defaults db fd).result = .ok (r1, flag)) :
    (get_or_create_query_from_post fields defaults
        (get_or_create_query_from_post fields defaults db fd).db fd).result =
      .ok (r1, false) ∧
    (get_or_create_query_from_post fields defaults
        (get_or_create_query_from_post fields defaults db fd).db fd).db =
      (get_or_create_query_from_post fields defaults db fd).db := by
  obtain ⟨qd3, hnorm, hfd, hcase⟩ := get_or_create_result_ok_inv h1
  rcases hcase with ⟨hflag, hflt, hr, hdb⟩ | ⟨hflag, hflt, hdb⟩
  · rw [hdb]
    have hnorm2 : normalizeFormData ⟨db.satellites, db.areas, db.queries ++ [r1]⟩ fd =
        .ok qd3 := by
      rw [normalizeFormData_queries_agnostic db.satellites db.areas (db.queries ++ [r1])
        db.queries fd]
      exact hnorm
    rw [get_or_create_of_norm hnorm2]
    have hq : (⟨db.satellites, db.areas, db.queries ++ [r1]⟩ : DB).queries =
        db.queries ++ [r1] := rfl
    rw [hq]
    have hfilter : (db.queries ++ [r1]).filter
        (fun rec => matchesFilter (filterFields fields qd3) rec) = [r1] := by
      rw [List.filter_append, hflt]
      have hm : matchesFilter (filterFields fields qd3) r1 = true := by
        rw [hr]
        exact matchesFilter_mkRecord_self fields defaults qd3
      simp [List.filter, hm]
    rw [hfilter]
    exact ⟨rfl, rfl⟩
  · rw [hdb, get_or_create_of_norm hnorm, hflt]
    exact ⟨rfl, rfl⟩

/-- C1 witness: a fresh store; the first call creates, the second finds. -/
theorem idempotence_second_call_witness :
    (get_or_create_query_from_post valid_query_fields (fun _ => "")
        (get_or_create_query_from_post valid_query_fields (fun _ => "")
          ⟨[⟨"LS7", "ls7_"⟩], [⟨"NT"⟩], []⟩ [("platform", "LS7"), ("area_id", "NT")]).db
        [("platform", "LS7"), ("area_id", "NT")]).result =
      .ok ([("platform", "LS7"), ("product", "ls7_NT"), ("time_start", ""), ("time_end", ""),
        ("latitude_max", ""), ("latitude_min", ""), ("longitude_max", ""),
        ("longitude_min", ""), ("title", "Custom Mosaic Query"), ("description", "None"),
        ("query_type", ""), ("animated_product", ""), ("compositor", "")], false) ∧
    (get_or_create_query_from_post valid_query_fields (fun _ => "")
        (get_or_create_query_from_post valid_query_fields (fun _ => "")
          ⟨[⟨"LS7", "ls7_"⟩], [⟨"NT"⟩], []⟩ [("platform", "LS7"), ("area_id", "NT")]).db
        [("platform", "LS7"), ("area_id", "NT")]).db =
      (get_or_create_query_from_post valid_query_fields (fun _ => "")
        ⟨[⟨"LS7", "ls7_"⟩], [⟨"NT"⟩], []⟩ [("platform", "LS7"), ("area_id", "NT")]).db :=
  idempotence_second_call valid_query_fields (fun _ => "")
    ⟨[⟨"LS7", "ls7_"⟩], [⟨"NT"⟩], []⟩ [("platform", "LS7"), ("area_id", "NT")]
    [("platform", "LS7"), ("product", "ls7_NT"), ("time_start", ""), ("time_end", ""),
     ("latitude_max", ""), ("latitude_min", ""), ("longitude_max", ""),
     ("longitude_min", ""), ("title", "Custom Mosaic Query"), ("description", "None"),
     ("query_type", ""), ("animated_product", ""), ("compositor", "")] true
    (by decide)

theorem filterFields_congr {fields : List String} {d1 d2 : FormData}
    (h : ∀ k ∈ fields, dictGet d1 k = dictGet d2 k) :
    filterFields fields d1 = filterFields fields d2 := by
  induction fields with
  | nil => rfl
  | cons f fs ih =>
    have hf : dictGet d1 f = dictGet d2 f := h f (List.mem_cons_self _ _)
    have hrest : ∀ k ∈ fs, dictGet d1 k = dictGet d2 k :=
      fun k hk => h k (List.mem_cons_of_mem _ hk)
    cases hd : dictGet d2 f with
    | none =>
      rw [filterFields_cons_none fs (hf.trans hd), filterFields_cons_none fs hd, ih hrest]
    | some v =>
      rw [filterFields_cons_some fs (hf.trans hd), filterFields_cons_some fs hd, ih hrest]

/-- Normalising two dicts that agree on the given fields (and using the same
satellite and area) yields dicts that still agree on those fields. -/
theorem normalized_agree_on (fields : List String) (fd1 fd2 : FormData) (sat : Satellite)
    (area : Area) (hagree : ∀ k ∈ fields, dictGet fd1 k = dictGet fd2 k) :
    ∀ k ∈ fields, dictGet (normalized fd1 sat area) k = dictGet (normalized fd2 sat area) k := by
  intro k hk
  by_cases hkp : k = "product"
  · subst hkp
    rw [dictGet_normalized_product, dictGet_normalized_product]
  · by_cases hkt : k = "title"
    · subst hkt
      have ht : resolveTitle fd1 = resolveTitle fd2 := by
        unfold resolveTitle
        rw [hagree "title" hk]
      rw [dictGet_normalized_title, dictGet_normalized_title, ht]
    · by_cases hkd : k = "description"
      · subst hkd
        have ht : resolveDescription fd1 = resolveDescription fd2 := by
          unfold resolveDescription
          rw [hagree "description" hk]
        rw [dictGet_normalized_description, dictGet_normalized_description, ht]
      · rw [dictGet_normalized fd1 sat area hkp hkt hkd,
          dictGet_normalized fd2 sat area hkp hkt hkd]
        exact hagree k hk

/-- C4 counterexample: `area_id` is not a declared field, so two submissions
that agree on every declared field — their declared-field restrictions are
equal — and differ only in the extraneous `area_id` nevertheless resolve to
different records, because `area_id` feeds the `product` derivation before
the filtering step. -/
theorem extraneous_key_counterexample :
    ¬ ("area_id" ∈ valid_query_fields) ∧
    filterFields valid_query_fields [("platform", "LS7"), ("area_id", "NT")] =
      filterFields valid_query_fields [("platform", "LS7"), ("area_id", "XX")] ∧
    (get_or_create_query_from_post valid_query_fields (fun _ => "")
        ⟨[⟨"LS7", "ls7_"⟩], [⟨"NT"⟩, ⟨"XX"⟩], []⟩
        [("platform", "LS7"), ("area_id", "NT")]).result ≠
      (get_or_create_query_from_post valid_query_fields (fun _ => "")
        ⟨[⟨"LS7", "ls7_"⟩], [⟨"NT"⟩, ⟨"XX"⟩], []⟩
        [("platform", "LS7"), ("area_id", "XX")]).result := by
  exact ⟨by decide, by decide, by decide⟩

/-- C4 (amended): extraneous keys are dropped before the lookup and creation
steps — a created record's keys are exactly the declared field names, so
extraneous keys never appear on it — and two submissions that agree on every
declared field and on `area_id` resolve identically (same result, same
database), whatever other extraneous keys they carry. -/
theorem extraneous_key_filtering (defaults : String → String) (db : DB) (fd1 fd2 : FormData)
    (hagree : ∀ k, k ∈ valid_query_fields ∨ k = "area_id" →
      dictGet fd1 k = dictGet fd2 k) :
    (∀ r flag, (get_or_create_query_from_post valid_query_fields defaults db fd1).result =
        .ok (r, flag) → flag = true → dictKeys r = valid_query_fields) ∧
    (get_or_create_query_from_post valid_query_fields defaults db fd1).result =
      (get_or_create_query_from_post valid_query_fields defaults db fd2).result ∧
    (get_or_create_query_from_post valid_query_fields defaults db fd1).db =
      (get_or_create_query_from_post valid_query_fields defaults db fd2).db := by
  have hkeys : ∀ (r : FormData) (flag : Bool),
      (get_or_create_query_from_post valid_query_fields defaults db fd1).result =
        .ok (r, flag) → flag = true → dictKeys r = valid_query_fields := by
    intro r flag h htrue
    obtain ⟨qd3, hnorm, _, hcase⟩ := get_or_create_result_ok_inv h
    rcases hcase with ⟨_, _, hr, _⟩ | ⟨hfalse, _, _⟩
    · rw [hr]
      exact dictKeys_mkRecord _ _ _
    · rw [htrue] at hfalse
      exact Bool.noConfusion hfalse
  refine ⟨hkeys, ?_⟩
  have hplat : dictGet fd1 "platform" = dictGet fd2 "platform" :=
    hagree "platform" (Or.inl (by simp [valid_query_fields]))
  have harea : dictGet fd1 "area_id" = dictGet fd2 "area_id" := hagree "area_id" (Or.inr rfl)
  cases hp : dictGet fd1 "platform" with
  | none =>
    have hp2 : dictGet fd2 "platform" = none := hplat.symm.trans hp
    have hn1 : normalizeFormData db fd1 = .error (.keyError "platform") := by
      simp only [normalizeFormData, hp]
    have hn2 : normalizeFormData db fd2 = .error (.keyError "platform") := by
      simp only [normalizeFormData, hp2]
    rw [get_or_create_of_norm_error hn1, get_or_create_of_norm_error hn2]
    exact ⟨rfl, rfl⟩
  | some p =>
    have hp2 : dictGet fd2 "platform" = some p := hplat.symm.trans hp
    cases hs : getSatellite db p with
    | error e =>
      have hn1 : normalizeFormData db fd1 = .error e := by
        simp only [normalizeFormData, hp, hs]
      have hn2 : normalizeFormData db fd2 = .error e := by
        simp only [normalizeFormData, hp2, hs]
      rw [get_or_create_of_norm_error hn1, get_or_create_of_norm_error hn2]
      exact ⟨rfl, rfl⟩
    | ok sat =>
      cases ha : dictGet fd1 "area_id" with
      | none =>
        have ha2 : dictGet fd2 "area_id" = none := harea.symm.trans ha
        have hn1 : normalizeFormData db fd1 = .error (.keyError "area_id") := by
          simp only [normalizeFormData, hp, hs, ha]
        have hn2 : normalizeFormData db fd2 = .error (.keyError "area_id") := by
          simp only [normalizeFormData, hp2, hs, ha2]
        rw [get_or_create_of_norm_error hn1, get_or_create_of_norm_error hn2]
        exact ⟨rfl, rfl⟩
      | some a =>
        have ha2 : dictGet fd2 "area_id" = some a := harea.symm.trans ha
        cases har : getArea db a with
        | error e =>
          have hn1 : normalizeFormData db fd1 = .error e := by
            simp only [normalizeFormData, hp, hs, ha, har]
          have hn2 : normalizeFormData db fd2 = .error e := by
            simp only [normalizeFormData, hp2, hs, ha2, har]
          rw [get_or_create_of_norm_error hn1, get_or_create_of_norm_error hn2]
          exact ⟨rfl, rfl⟩
        | ok area =>
          have hn1 := normalizeFormData_eq hp hs ha har
          have hn2 := normalizeFormData_eq hp2 hs ha2 har
          have hfeq : filterFields valid_query_fields (normalized fd1 sat area) =
              filterFields valid_query_fields (normalized fd2 sat area) :=
            filterFields_congr (normalized_agree_on valid_query_fields fd1 fd2 sat area
              (fun k hk => hagree k (Or.inl hk)))
          rw [get_or_create_of_norm hn1, get_or_create_of_norm hn2, hfeq]
          cases hm : db.queries.filter (fun rec =>
            matchesFilter (filterFields valid_query_fields (normalized fd2 sat area)) rec) with
          | nil => exact ⟨rfl, rfl⟩
          | cons q rest =>
            cases rest with
            | nil => exact ⟨rfl, rfl⟩
            | cons q2 rest2 => exact ⟨rfl, rfl⟩

/-- C4 witness: one submission carries an extra `junk` key, the other does
not; everything observable about the two calls coincides. -/
theorem extraneous_key_filtering_witness :
    (∀ r flag, (get_or_create_query_from_post valid_query_fields (fun _ => "")
        ⟨[⟨"LS7", "ls7_"⟩], [⟨"NT"⟩], []⟩
        [("platform", "LS7"), ("area_id", "NT"), ("junk", "x")]).result =
        .ok (r, flag) → flag = true → dictKeys r = valid_query_fields) ∧
    (get_or_create_query_from_post valid_query_fields (fun _ => "")
        ⟨[⟨"LS7", "ls7_"⟩], [⟨"NT"⟩], []⟩
        [("platform", "LS7"), ("area_id", "NT"), ("junk", "x")]).result =
      (get_or_create_query_from_post valid_query_fields (fun _ => "")
        ⟨[⟨"LS7", "ls7_"⟩], [⟨"NT"⟩], []⟩
        [("platform", "LS7"), ("area_id", "NT")]).result ∧
    (get_or_create_query_from_post valid_query_fields (fun _ => "")
        ⟨[⟨"LS7", "ls7_"⟩], [⟨"NT"⟩], []⟩
        [("platform", "LS7"), ("area_id", "NT"), ("junk", "x")]).db =
      (get_or_create_query_from_post valid_query_fields (fun _ => "")
        ⟨[⟨"LS7", "ls7_"⟩], [⟨"NT"⟩], []⟩
        [("platform", "LS7"), ("area_id", "NT")]).db := by
  apply extraneous_key_filtering
  intro k hk
  rcases hk with hmem | heq
  · simp only [valid_query_fields, List.mem_cons, List.not_mem_nil, or_false] at hmem
    rcases hmem with rfl | rfl | rfl | rfl | rfl | rfl | rfl | rfl | rfl | rfl | rfl | rfl | rfl <;>
      decide
  · subst heq
    decide
